import Mathlib

/-!
Verification development for the Afterlink repository.

The repository implements a search-and-read web experience driven by a
chat-style protocol.  This file gives a shallow embedding of its core logic:

* the ICP lead scorer (MATCH_ICP handler in
  src/afterlink/src/conversations/search.ts): weighted dimension points,
  raw total and the exponential fit gate;
* the user-insight row store and the ARTICLE_QUESTION, GET_INSIGHTS and
  SAVE_LEAD_CONTACT handlers operating on it;
* the client transport correlator (waitForBotResponse in
  src/client/src/hooks/useBot.ts): the per-poll message scan and the
  bounded polling loop;
* the SEARCH handler composition (validation, relevant existing articles,
  new suggestions).

Numbers flowing through the scorer are modelled as rationals (JavaScript
number literals in play are exact decimals); Math.pow(x, 1.5) for x >= 0 is
modelled as Real.sqrt (x ^ 3), which coincides with the real power x ^ (3/2).
Calls to the external text-generation capability are modelled as oracle
inputs (their parsed results are parameters of the embedded functions).
-/

namespace Afterlink

/-! ### String primitives

JavaScript's trim, toLowerCase and startsWith are modelled directly on the
character sequence of the string, by structural recursion, so that concrete
instances evaluate inside the kernel. -/

/-- Whitespace as far as trimming is concerned. -/
def isSpaceChar (c : Char) : Bool :=
  c == ' ' || c == '\t' || c == '\n' || c == '\r'

/-- JavaScript String.prototype.trim: drop leading and trailing whitespace. -/
def strTrim (s : String) : String :=
  ⟨((s.data.dropWhile isSpaceChar).reverse.dropWhile isSpaceChar).reverse⟩

/-- JavaScript String.prototype.toLowerCase on the character sequence. -/
def strToLower (s : String) : String :=
  ⟨s.data.map Char.toLower⟩

/-- JavaScript String.prototype.startsWith. -/
def strStartsWith (s pre : String) : Bool :=
  pre.data.isPrefixOf s.data

/-! ### ICP scorer (MATCH_ICP handler, search.ts lines 774-983) -/

/-- Weight of the fit dimension (search.ts line 892). -/
def weightFit : ℚ := 35

/-- Weight of the budget dimension (search.ts line 893). -/
def weightBudget : ℚ := 20

/-- Weight of the need dimension (search.ts line 894). -/
def weightNeed : ℚ := 20

/-- Weight of the urgency dimension (search.ts line 895). -/
def weightUrgency : ℚ := 15

/-- Weight of the engagement dimension (search.ts line 896). -/
def weightEngagement : ℚ := 10

/-- Weighted points of one dimension:
Math.round((subScore / 100) * weight * 10) / 10 (search.ts lines 900-926). -/
def weightedPoints (subScore weight : ℚ) : ℚ :=
  (round (subScore / 100 * weight * 10) : ℚ) / 10

/-- Sum of the five weighted dimension points (search.ts lines 934-939). -/
def rawTotal (fit budget need urgency engagement : ℚ) : ℚ :=
  weightedPoints fit weightFit + weightedPoints budget weightBudget +
    weightedPoints need weightNeed + weightedPoints urgency weightUrgency +
    weightedPoints engagement weightEngagement

/-- The fit gate Math.pow(fitScore / 100, 1.5) (search.ts lines 931-932),
written as the square root of the cube, which equals the 3/2 real power on
nonnegative input. -/
noncomputable def fitGate (fit : ℚ) : ℝ :=
  Real.sqrt (((fit : ℝ) / 100) ^ 3)

/-- The final lead score Math.round(rawTotal * fitGate) (search.ts line 943). -/
noncomputable def totalScore (fit budget need urgency engagement : ℚ) : ℤ :=
  round ((rawTotal fit budget need urgency engagement : ℝ) * fitGate fit)

/-! ### User-insight row store (userInsightsTable) -/

/-- A row of the userInsights table, with the optional contact fields. -/
structure InsightRow where
  id : Nat
  oduserId : String
  articleTitle : String
  category : String
  insight : String
  rawMessage : String
  userName : Option String
  contactPreference : Option String
  userEmail : Option String
  userPhone : Option String
deriving DecidableEq

/-- The shared row store of the userInsights table. -/
abbrev InsightStore := List InsightRow

/-- findRows with the equality filter on oduserId. -/
def findByUser (store : InsightStore) (uid : String) : List InsightRow :=
  store.filter (fun r => r.oduserId == uid)

/-- Number of rows held for a session identifier. -/
def countUser (store : InsightStore) (uid : String) : Nat :=
  (findByUser store uid).length

/-- A store-assigned identifier not used by any existing row (always positive). -/
def freshId (store : InsightStore) : Nat :=
  store.foldr (fun r acc => max r.id acc) 0 + 1

/-- Payload of a row creation, before the store assigns an id. -/
structure NewInsight where
  oduserId : String
  articleTitle : String
  category : String
  insight : String
  rawMessage : String
  userName : Option String
  contactPreference : Option String
  userEmail : Option String
  userPhone : Option String
deriving DecidableEq

/-- Attach a store-assigned id to a creation payload. -/
def NewInsight.withId (n : NewInsight) (i : Nat) : InsightRow :=
  ⟨i, n.oduserId, n.articleTitle, n.category, n.insight, n.rawMessage,
    n.userName, n.contactPreference, n.userEmail, n.userPhone⟩

/-- Assign consecutive ids starting at start to a batch of creation payloads. -/
def assignIds (start : Nat) : List NewInsight → List InsightRow
  | [] => []
  | n :: rest => n.withId start :: assignIds (start + 1) rest

/-- createRows: append the batch with fresh store-assigned ids. -/
def createRows (store : InsightStore) (rows : List NewInsight) : InsightStore :=
  store ++ assignIds (freshId store) rows

/-- updateRows as used by the follow-up turn: replace category, insight and
rawMessage of the row with the given id (search.ts lines 462-469). -/
def updateInsightRow (store : InsightStore) (rid : Nat) (cat ins raw : String) :
    InsightStore :=
  store.map (fun r =>
    if r.id == rid then
      { r with category := cat, insight := ins, rawMessage := raw }
    else r)

/-- The parsed result of the insight-extraction generation call
(search.ts lines 417-455). -/
structure ExtractedNote where
  theme : String
  note : String
deriving DecidableEq

/-- Contact information optionally carried by an ARTICLE_QUESTION request. -/
structure ContactInfo where
  userName : String
  contactPreference : String
  contactValue : String
deriving DecidableEq

/-- The row created by a follow-up turn when no row exists for the session
(search.ts lines 473-485).  Category falls back to "other" when the extracted
theme is empty, mirroring the JavaScript truthiness of extracted.theme. -/
def followUpNewRow (userId articleTitle question : String)
    (ci : Option ContactInfo) (ex : ExtractedNote) : NewInsight where
  oduserId := userId
  articleTitle := articleTitle
  category := if ex.theme = "" then "other" else ex.theme
  insight := ex.note
  rawMessage := question
  userName := ci.map (fun c => c.userName)
  contactPreference := ci.map (fun c => c.contactPreference)
  userEmail :=
    match ci with
    | some c => if c.contactPreference == "email" then some c.contactValue else none
    | none => none
  userPhone :=
    match ci with
    | some c => if c.contactPreference == "phone" then some c.contactValue else none
    | none => none

/-- Store effect of a follow-up ARTICLE_QUESTION turn (search.ts lines
391-491): look up the session row, and if the extraction produced a
non-empty note, update the found row in place, or create a new row when
none was found.  The extraction result is an oracle input; none stands for
a parse failure.  The branch on the found id being nonzero mirrors the
JavaScript truthiness test if (existingRowId). -/
def followUpStoreEffect (store : InsightStore) (userId articleTitle question : String)
    (contactInfo : Option ContactInfo) (extracted : Option ExtractedNote) :
    InsightStore :=
  match extracted with
  | none => store
  | some ex =>
    if strTrim ex.note ≠ "" then
      match (findByUser store userId).head?.map (fun r => r.id) with
      | some rid =>
        if rid ≠ 0 then
          updateInsightRow store rid
            (if ex.theme = "" then "other" else ex.theme) ex.note question
        else
          createRows store [followUpNewRow userId articleTitle question contactInfo ex]
      | none =>
        createRows store [followUpNewRow userId articleTitle question contactInfo ex]
    else store

/-- Store effect of a whole ARTICLE_QUESTION turn (search.ts lines 316-543):
the first-message branch only generates a reply and never touches the
insight table; the follow-up branch runs the accumulator. -/
def articleQuestionStoreEffect (store : InsightStore)
    (userId articleTitle question : String) (isFirstMessage : Bool)
    (contactInfo : Option ContactInfo) (extracted : Option ExtractedNote) :
    InsightStore :=
  if isFirstMessage then store
  else followUpStoreEffect store userId articleTitle question contactInfo extracted

/-- The seven mock lead rows auto-seeded by GET_INSIGHTS on an empty table
(search.ts lines 553-603). -/
def mockLeads : List NewInsight :=
  [⟨"mock_lead_1", "Best Bubble Tea Spots in the City", "food",
      "Spends $5-8 per bubble tea. Visits 2-3 times per week. Prefers less sugar (30-50%). Likes taro and brown sugar flavors.",
      "", none, none, none, none⟩,
    ⟨"mock_lead_2", "Skincare Routine for Your 30s", "beauty",
      "32 years old. Has combination skin - oily T-zone, dry cheeks. Currently spends $150/month on skincare. Looking for anti-aging products. Concerned about fine lines.",
      "", none, none, none, none⟩,
    ⟨"mock_lead_3", "Home Workout Equipment Guide", "fitness",
      "Works out 4x per week at home. Budget of $500 for equipment. Has limited space (apartment). Interested in strength training. Already owns dumbbells.",
      "", none, none, none, none⟩,
    ⟨"mock_lead_4", "Investing for Beginners", "finance",
      "25 years old. Just started first job. Has $1000 to invest. Risk-tolerant. Interested in index funds and ETFs. No debt.",
      "", none, none, none, none⟩,
    ⟨"mock_lead_5", "Best Coffee Machines for Home", "food",
      "Drinks 3 cups of coffee daily. Currently spending $15/day at cafes. Budget up to $800 for a machine. Prefers espresso-based drinks. Has counter space.",
      "", none, none, none, none⟩,
    ⟨"mock_lead_6", "Learning Piano as an Adult", "education",
      "45 years old. Complete beginner. Can practice 30 min daily. Interested in digital piano under $1000. Wants to play classical music.",
      "", none, none, none, none⟩,
    ⟨"mock_lead_7", "Sustainable Fashion Guide", "fashion",
      "28 years old. Trying to build capsule wardrobe. Budget $200/month for clothes. Prefers neutral colors. Size medium. Works in casual office.",
      "", none, none, none, none⟩]

/-- GET_INSIGHTS handler store effect and response (search.ts lines 546-624):
fetch all rows; when the table is empty, seed the seven mock leads and fetch
again; respond with the fetched rows. -/
def getInsightsHandler (store : InsightStore) : InsightStore × List InsightRow :=
  if store.length = 0 then
    let seeded := createRows store mockLeads
    (seeded, seeded)
  else (store, store)

/-- SAVE_LEAD_CONTACT handler (search.ts lines 985-1034): if a row exists for
the session, merge the contact fields into the first found row; otherwise do
nothing.  Both branches respond with success (the Bool component). -/
def saveLeadContactHandler (store : InsightStore)
    (oduserId _articleTitle userName contactPreference contactValue : String) :
    InsightStore × Bool :=
  match findByUser store oduserId with
  | [] => (store, true)
  | r0 :: _ =>
    (store.map (fun r =>
      if r.id == r0.id then
        { r with
          userName := some userName,
          contactPreference := some contactPreference,
          userEmail :=
            if contactPreference == "email" then some contactValue else r0.userEmail,
          userPhone :=
            if contactPreference == "phone" then some contactValue else r0.userPhone }
      else r), true)

/-! ### Transport correlator (useBot.ts, waitForBotResponse) -/

/-- A message of the conversation channel as the client sees it. -/
structure ChatMessage where
  id : String
  payloadType : String
  text : String
deriving DecidableEq

/-- One scan over the fetched message list (useBot.ts lines 87-102): skip the
just-sent message by id, skip non-text and empty payloads, skip texts in the
caller-supplied exclusion list, skip texts starting with one of the three
command markers checked by the code, and return the first remaining trimmed
text of length at least 2. -/
def scanMessages (userMessageId : String) (skipTexts : List String) :
    List ChatMessage → Option String
  | [] => none
  | m :: rest =>
    if m.id == userMessageId then scanMessages userMessageId skipTexts rest
    else if m.payloadType == "text" && m.text != "" then
      if skipTexts.contains (strTrim m.text) then scanMessages userMessageId skipTexts rest
      else if strStartsWith (strTrim m.text) "SEARCH:"
          || strStartsWith (strTrim m.text) "ARTICLE:"
          || strStartsWith (strTrim m.text) "GET_ARTICLE:" then
        scanMessages userMessageId skipTexts rest
      else if decide (2 ≤ (strTrim m.text).length) then some (strTrim m.text)
      else scanMessages userMessageId skipTexts rest
    else scanMessages userMessageId skipTexts rest

/-- The qualification predicate actually enforced by the scan in the code. -/
def qualifiesAsResponse (userMessageId : String) (skipTexts : List String)
    (m : ChatMessage) : Bool :=
  !(m.id == userMessageId) && (m.payloadType == "text" && m.text != "") &&
    !(skipTexts.contains (strTrim m.text)) &&
    !(strStartsWith (strTrim m.text) "SEARCH:"
      || strStartsWith (strTrim m.text) "ARTICLE:"
      || strStartsWith (strTrim m.text) "GET_ARTICLE:") &&
    decide (2 ≤ (strTrim m.text).length)

/-- Every command marker reserved by the backend dispatch
(search.ts lines 18-1037). -/
def reservedCommandWords : List String :=
  ["SEARCH:", "ARTICLE:", "GET_ARTICLE:", "ARTICLE_QUESTION:", "GET_INSIGHTS",
    "SEED_MOCK_DATA", "MATCH_ICP:", "SAVE_LEAD_CONTACT:", "CLEAR_ARTICLES"]

/-- The qualification predicate as the specification words it: a qualifying
message must not start with any reserved command marker.  Stated for
comparison with qualifiesAsResponse, which only checks three markers. -/
def specQualifiesAsResponse (userMessageId : String) (skipTexts : List String)
    (m : ChatMessage) : Bool :=
  !(m.id == userMessageId) && (m.payloadType == "text" && m.text != "") &&
    !(skipTexts.contains (strTrim m.text)) &&
    !(reservedCommandWords.any (fun p => strStartsWith (strTrim m.text) p)) &&
    decide (2 ≤ (strTrim m.text).length)

/-- Attempt budget of the polling loop (useBot.ts line 79). -/
def maxAttempts : Nat := 60

/-- Poll interval in milliseconds (useBot.ts line 80). -/
def pollIntervalMs : Nat := 1000

/-- The polling loop: at attempt i the channel holds message list lists i;
scan it, return the first qualifying text, and fail with the timeout error
once the attempt budget is exhausted (useBot.ts lines 82-105). -/
def waitGo (lists : Nat → List ChatMessage) (userMessageId : String)
    (skipTexts : List String) : Nat → Nat → Except String String
  | _, 0 => Except.error "Timeout waiting for bot response"
  | i, fuel + 1 =>
    match scanMessages userMessageId skipTexts (lists i) with
    | some t => Except.ok t
    | none => waitGo lists userMessageId skipTexts (i + 1) fuel

/-- waitForBotResponse over a trace of fetched message lists. -/
def waitForBotResponse (lists : Nat → List ChatMessage) (userMessageId : String)
    (skipTexts : List String) : Except String String :=
  waitGo lists userMessageId skipTexts 0 maxAttempts

/-- Concrete channel content exhibiting the gap between the code's scan and
the specification's scan: the first foreign message is an echo carrying a
reserved command marker that the code does not filter. -/
def reservedEchoMessages : List ChatMessage :=
  [⟨"m1", "text", "ARTICLE_QUESTION: ping"⟩,
    ⟨"m2", "text", "a real answer"⟩]

/-! ### Search orchestration (SEARCH handler, search.ts lines 17-163) -/

/-- A stored article row (id, title, snippet). -/
structure StoredArticle where
  id : Nat
  title : String
  snippet : String
deriving DecidableEq

/-- A freshly suggested article (title, snippet), not yet persisted. -/
structure SuggestedArticle where
  title : String
  snippet : String
deriving DecidableEq

/-- An element of the search result array; id is present exactly for stored
articles. -/
structure SearchResult where
  id : Option Nat
  title : String
  snippet : String
deriving DecidableEq

/-- The plausibility verdict: the validation response counts as yes when its
trimmed lower-cased text starts with "yes" (search.ts line 46). -/
def isValidQuery (validationResult : String) : Bool :=
  strStartsWith (strToLower (strTrim validationResult)) "yes"

/-- The fixed suggestion returned for queries judged incomprehensible
(search.ts lines 51-57). -/
def mentalHealthSuggestion : SearchResult :=
  ⟨none, "Signs You Might Need a Mental Health Day",
    "Feeling overwhelmed? Here\x27s how to recognize when your mind needs a break."⟩

/-- Relevant existing articles: when the table is non-empty and the relevance
response parsed, keep the stored rows whose id is among the deduplicated
parsed ids; a parse failure (none) keeps nothing (search.ts lines 64-106). -/
def relevantExistingOf (existing : List StoredArticle)
    (relevanceParsed : Option (List Nat)) : List StoredArticle :=
  if existing.length > 0 then
    match relevanceParsed with
    | some ids => existing.filter (fun a => (ids.eraseDups).contains a.id)
    | none => []
  else []

/-- Target size of a search result (search.ts line 109). -/
def targetResultCount : Nat := 10

/-- The SEARCH handler composition (search.ts lines 18-154).  The validation
response, the stored rows, the parsed relevance ids and the parsed new
suggestions are oracle inputs; none marks a parse failure. -/
def searchHandler (query validationResult : String) (existing : List StoredArticle)
    (relevanceParsed : Option (List Nat))
    (suggestionsParsed : Option (List SuggestedArticle)) : List SearchResult :=
  if query.length < 2 then []
  else if !(isValidQuery validationResult) then [mentalHealthSuggestion]
  else
    let relevantExisting := relevantExistingOf existing relevanceParsed
    let newCount := targetResultCount - relevantExisting.length
    let newSuggestions := if 0 < newCount then suggestionsParsed.getD [] else []
    relevantExisting.map (fun a => ⟨some a.id, a.title, a.snippet⟩) ++
      newSuggestions.map (fun s => ⟨none, s.title, s.snippet⟩)

/-- Ten concrete fresh suggestions used to instantiate the search theorem. -/
def demoSuggestions : List SuggestedArticle :=
  [⟨"N1", "s1"⟩, ⟨"N2", "s2"⟩, ⟨"N3", "s3"⟩, ⟨"N4", "s4"⟩, ⟨"N5", "s5"⟩,
    ⟨"N6", "s6"⟩, ⟨"N7", "s7"⟩, ⟨"N8", "s8"⟩, ⟨"N9", "s9"⟩, ⟨"N10", "s10"⟩]

/-- A concrete one-row store used to instantiate the store theorems. -/
def demoInsightStore : InsightStore :=
  [⟨1, "s1", "Tea Guide", "food", "likes tea", "first message", none, none, none, none⟩]

/-! ### Helper lemmas -/

/-- Rounding bound: round x is at most z once x + 1/2 < z + 1. -/
theorem round_int_le {x : ℝ} {z : ℤ} (h : x + 1 / 2 < (z : ℝ) + 1) : round x ≤ z := by
  rw [round_eq]
  exact Int.floor_le_iff.mpr (by exact_mod_cast h)

/-- Rounding bound: round x is at least z once z is at most x + 1/2. -/
theorem le_round_int {x : ℝ} {z : ℤ} (h : (z : ℝ) ≤ x + 1 / 2) : z ≤ round x := by
  rw [round_eq]
  exact Int.le_floor.mpr h

/-- Weighted dimension points are nonnegative for nonnegative inputs. -/
theorem weightedPoints_nonneg {s w : ℚ} (hs : 0 ≤ s) (hw : 0 ≤ w) :
    0 ≤ weightedPoints s w := by
  unfold weightedPoints
  have h0 : (0 : ℚ) ≤ s / 100 * w * 10 := by positivity
  have h1 : (0 : ℤ) ≤ round (s / 100 * w * 10) := by
    rw [round_eq]
    exact Int.le_floor.mpr (by push_cast; linarith)
  have h2 : (0 : ℚ) ≤ (round (s / 100 * w * 10) : ℚ) := by exact_mod_cast h1
  linarith

/-- Weighted dimension points exceed the weight by at most one twentieth. -/
theorem weightedPoints_le {s w : ℚ} (hs : s ≤ 100) (hw : 0 ≤ w) :
    weightedPoints s w ≤ w + 1 / 20 := by
  unfold weightedPoints
  have h1 : (round (s / 100 * w * 10) : ℚ) ≤ s / 100 * w * 10 + 1 / 2 :=
    round_le_add_half _
  have h2 : s / 100 * w * 10 ≤ 10 * w := by nlinarith
  linarith

/-- The fit dimension contributes exactly 14 points at sub-score 40. -/
theorem weightedPoints_forty : weightedPoints 40 weightFit = 14 := by
  norm_num [weightedPoints, weightFit, round_eq]

/-- The fit dimension contributes exactly 31.5 points at sub-score 90. -/
theorem weightedPoints_ninety : weightedPoints 90 weightFit = 63 / 2 := by
  norm_num [weightedPoints, weightFit, round_eq]

/-- Lower bound on the raw total at fit sub-score 40. -/
theorem rawTotal_forty_lb {b n u e : ℚ} (hb : 0 ≤ b) (hn : 0 ≤ n) (hu : 0 ≤ u)
    (he : 0 ≤ e) : 14 ≤ rawTotal 40 b n u e := by
  unfold rawTotal
  rw [weightedPoints_forty]
  have h1 := weightedPoints_nonneg hb (by norm_num [weightBudget] : (0:ℚ) ≤ weightBudget)
  have h2 := weightedPoints_nonneg hn (by norm_num [weightNeed] : (0:ℚ) ≤ weightNeed)
  have h3 := weightedPoints_nonneg hu (by norm_num [weightUrgency] : (0:ℚ) ≤ weightUrgency)
  have h4 := weightedPoints_nonneg he (by norm_num [weightEngagement] : (0:ℚ) ≤ weightEngagement)
  linarith

/-- Upper bound on the raw total at fit sub-score 40. -/
theorem rawTotal_forty_ub {b n u e : ℚ} (hb : b ≤ 100) (hn : n ≤ 100) (hu : u ≤ 100)
    (he : e ≤ 100) : rawTotal 40 b n u e ≤ 396 / 5 := by
  unfold rawTotal
  rw [weightedPoints_forty]
  have h1 := weightedPoints_le hb (by norm_num [weightBudget] : (0:ℚ) ≤ weightBudget)
  have h2 := weightedPoints_le hn (by norm_num [weightNeed] : (0:ℚ) ≤ weightNeed)
  have h3 := weightedPoints_le hu (by norm_num [weightUrgency] : (0:ℚ) ≤ weightUrgency)
  have h4 := weightedPoints_le he (by norm_num [weightEngagement] : (0:ℚ) ≤ weightEngagement)
  have hw : weightBudget + weightNeed + weightUrgency + weightEngagement = 65 := by
    norm_num [weightBudget, weightNeed, weightUrgency, weightEngagement]
  linarith

/-- Lower bound on the raw total at fit sub-score 90. -/
theorem rawTotal_ninety_lb {b n u e : ℚ} (hb : 0 ≤ b) (hn : 0 ≤ n) (hu : 0 ≤ u)
    (he : 0 ≤ e) : 63 / 2 ≤ rawTotal 90 b n u e := by
  unfold rawTotal
  rw [weightedPoints_ninety]
  have h1 := weightedPoints_nonneg hb (by norm_num [weightBudget] : (0:ℚ) ≤ weightBudget)
  have h2 := weightedPoints_nonneg hn (by norm_num [weightNeed] : (0:ℚ) ≤ weightNeed)
  have h3 := weightedPoints_nonneg hu (by norm_num [weightUrgency] : (0:ℚ) ≤ weightUrgency)
  have h4 := weightedPoints_nonneg he (by norm_num [weightEngagement] : (0:ℚ) ≤ weightEngagement)
  linarith

/-- The fit gate vanishes at fit sub-score 0. -/
theorem fitGate_zero : fitGate 0 = 0 := by
  norm_num [fitGate]

/-- The fit gate at sub-score 40 in closed form. -/
theorem fitGate_forty_eq : fitGate 40 = Real.sqrt (8 / 125) := by
  norm_num [fitGate]

/-- The fit gate at sub-score 90 in closed form. -/
theorem fitGate_ninety_eq : fitGate 90 = Real.sqrt (729 / 1000) := by
  norm_num [fitGate]

/-- Lower bound on the fit gate at sub-score 40. -/
theorem fitGate_forty_lb : (1 / 28 : ℝ) ≤ fitGate 40 := by
  rw [fitGate_forty_eq]
  exact (Real.le_sqrt (by norm_num) (by norm_num)).mpr (by norm_num)

/-- Upper bound on the fit gate at sub-score 40. -/
theorem fitGate_forty_ub : fitGate 40 < 205 / 792 := by
  rw [fitGate_forty_eq]
  exact (Real.sqrt_lt' (by norm_num)).mpr (by norm_num)

/-- Lower bound on the fit gate at sub-score 90. -/
theorem fitGate_ninety_lb : (53 / 63 : ℝ) ≤ fitGate 90 := by
  rw [fitGate_ninety_eq]
  exact (Real.le_sqrt (by norm_num) (by norm_num)).mpr (by norm_num)

/-- The 3/2 real power of a nonnegative real is the square root of its cube,
as used by the fit gate to model Math.pow(x, 1.5). -/
theorem rpow_onePointFive {x : ℝ} (hx : 0 ≤ x) :
    x ^ (1.5 : ℝ) = Real.sqrt (x ^ 3) := by
  have h : (1.5 : ℝ) = ((3 : ℕ) : ℝ) * (1 / 2) := by push_cast; norm_num
  rw [h, Real.rpow_mul hx, Real.rpow_natCast, Real.sqrt_eq_rpow]

/-- Mapping a row-wise transformation that keeps oduserId keeps the per-user
row count. -/
theorem countUser_map_of_preserve (g : InsightRow → InsightRow)
    (h : ∀ r, (g r).oduserId = r.oduserId) (store : InsightStore) (u : String) :
    countUser (store.map g) u = countUser store u := by
  induction store with
  | nil => rfl
  | cons r t ih =>
    unfold countUser findByUser at ih ⊢
    simp only [List.map_cons, List.filter_cons, h r]
    by_cases hc : (r.oduserId == u) = true
    · simp only [hc, if_true, List.length_cons, ih]
    · simp only [hc, if_false, Bool.false_eq_true, ih]

/-- Mapping a row-wise transformation that keeps id keeps the id sequence. -/
theorem map_preserves_ids (g : InsightRow → InsightRow)
    (h : ∀ r, (g r).id = r.id) (store : InsightStore) :
    (store.map g).map (fun r => r.id) = store.map (fun r => r.id) := by
  induction store with
  | nil => rfl
  | cons r t ih => simp only [List.map_cons, h r, ih]

/-- Appending one row adds to the count of its own user only. -/
theorem countUser_append_single (store : InsightStore) (row : InsightRow)
    (u : String) :
    countUser (store ++ [row]) u =
      countUser store u + (if row.oduserId == u then 1 else 0) := by
  unfold countUser findByUser
  rw [List.filter_append]
  by_cases hc : (row.oduserId == u) = true
  · simp [List.filter_cons, hc]
  · simp [List.filter_cons, hc]

/-- Updating a row in place never changes any per-user row count. -/
theorem updateInsightRow_countUser (store : InsightStore) (rid : Nat)
    (cat ins raw u : String) :
    countUser (updateInsightRow store rid cat ins raw) u = countUser store u := by
  unfold updateInsightRow
  exact countUser_map_of_preserve _ (fun r => by split <;> rfl) store u

/-- Updating a row in place keeps the id sequence of the store. -/
theorem updateInsightRow_ids (store : InsightStore) (rid : Nat)
    (cat ins raw : String) :
    (updateInsightRow store rid cat ins raw).map (fun r => r.id) =
      store.map (fun r => r.id) := by
  unfold updateInsightRow
  exact map_preserves_ids _ (fun r => by split <;> rfl) store

/-! ### Claim theorems -/

/-- C1: the final score equals round(rawTotal * (fitSubScore/100)^1.5); for
fixed budget/need/urgency/engagement sub-scores within [0, 100] the score at
fit 90 exceeds the score at fit 40, which exceeds the score at fit 0, and the
score at fit 0 is 0 regardless of the other four sub-scores. -/
theorem icp_fit_gate_score (fit budget need urgency engagement : ℚ)
    (hfit : 0 ≤ fit)
    (hb : 0 ≤ budget) (hb' : budget ≤ 100)
    (hn : 0 ≤ need) (hn' : need ≤ 100)
    (hu : 0 ≤ urgency) (hu' : urgency ≤ 100)
    (he : 0 ≤ engagement) (he' : engagement ≤ 100) :
    totalScore fit budget need urgency engagement =
        round ((rawTotal fit budget need urgency engagement : ℝ) *
          ((fit : ℝ) / 100) ^ (1.5 : ℝ))
    ∧ totalScore 90 budget need urgency engagement >
        totalScore 40 budget need urgency engagement
    ∧ totalScore 40 budget need urgency engagement >
        totalScore 0 budget need urgency engagement
    ∧ totalScore 0 budget need urgency engagement = 0 := by
  have hfit100 : (0 : ℝ) ≤ (fit : ℝ) / 100 := by
    have : (0 : ℝ) ≤ (fit : ℝ) := by exact_mod_cast hfit
    linarith
  have hzero : totalScore 0 budget need urgency engagement = 0 := by
    unfold totalScore
    rw [fitGate_zero, mul_zero, round_zero]
  have hr40lb : (14 : ℝ) ≤ ((rawTotal 40 budget need urgency engagement : ℚ) : ℝ) := by
    exact_mod_cast rawTotal_forty_lb hb hn hu he
  have hr40ub : ((rawTotal 40 budget need urgency engagement : ℚ) : ℝ) ≤ 396 / 5 := by
    have h0 : ((rawTotal 40 budget need urgency engagement : ℚ) : ℝ) ≤
        ((396 / 5 : ℚ) : ℝ) := by
      exact_mod_cast rawTotal_forty_ub hb' hn' hu' he'
    push_cast at h0
    exact h0
  have hr90lb : (63 / 2 : ℝ) ≤ ((rawTotal 90 budget need urgency engagement : ℚ) : ℝ) := by
    have h0 : ((63 / 2 : ℚ) : ℝ) ≤
        ((rawTotal 90 budget need urgency engagement : ℚ) : ℝ) := by
      exact_mod_cast rawTotal_ninety_lb hb hn hu he
    push_cast at h0
    exact h0
  have hs40ge : (1 : ℤ) ≤ totalScore 40 budget need urgency engagement := by
    unfold totalScore
    apply le_round_int
    have hmul : (14 : ℝ) * (1 / 28) ≤
        ((rawTotal 40 budget need urgency engagement : ℚ) : ℝ) * fitGate 40 :=
      mul_le_mul hr40lb fitGate_forty_lb (by norm_num) (by linarith)
    push_cast
    nlinarith [hmul]
  have hs40le : totalScore 40 budget need urgency engagement ≤ 20 := by
    unfold totalScore
    apply round_int_le
    have h1 : ((rawTotal 40 budget need urgency engagement : ℚ) : ℝ) * fitGate 40 ≤
        (396 / 5) * fitGate 40 :=
      mul_le_mul_of_nonneg_right hr40ub (Real.sqrt_nonneg _)
    have h2 : (396 / 5 : ℝ) * fitGate 40 < (396 / 5) * (205 / 792) :=
      mul_lt_mul_of_pos_left fitGate_forty_ub (by norm_num)
    push_cast
    nlinarith [h1, h2]
  have hs90ge : (27 : ℤ) ≤ totalScore 90 budget need urgency engagement := by
    unfold totalScore
    apply le_round_int
    have hmul : (63 / 2 : ℝ) * (53 / 63) ≤
        ((rawTotal 90 budget need urgency engagement : ℚ) : ℝ) * fitGate 90 :=
      mul_le_mul hr90lb fitGate_ninety_lb (by norm_num) (by linarith)
    push_cast
    nlinarith [hmul]
  refine ⟨?_, ?_, ?_, hzero⟩
  · unfold totalScore fitGate
    rw [rpow_onePointFive hfit100]
  · exact lt_of_le_of_lt hs40le (lt_of_lt_of_le (by norm_num) hs90ge)
  · rw [hzero]
    exact lt_of_lt_of_le (by norm_num) hs40ge

/-- Witness for C1 at the concrete sub-scores of the specification's
scenario C (fit 80, budget 60, need 70, urgency 50, engagement 40). -/
theorem icp_fit_gate_score_witness :
    totalScore 80 60 70 50 40 =
        round ((rawTotal 80 60 70 50 40 : ℝ) * ((80 : ℚ) / 100 : ℝ) ^ (1.5 : ℝ))
    ∧ totalScore 90 60 70 50 40 > totalScore 40 60 70 50 40
    ∧ totalScore 40 60 70 50 40 > totalScore 0 60 70 50 40
    ∧ totalScore 0 60 70 50 40 = 0 := by
  have h := icp_fit_gate_score 80 60 70 50 40 (by norm_num) (by norm_num)
    (by norm_num) (by norm_num) (by norm_num) (by norm_num) (by norm_num)
    (by norm_num) (by norm_num)
  exact_mod_cast h

/-- C2: the per-dimension weighted points equal round(subScore/100 * weight,
1 decimal) with the fixed weights fit=35, budget=20, need=20, urgency=15,
engagement=10 summing to 100, and a lead with all five sub-scores 100 has raw
total exactly 100. -/
theorem icp_weight_conservation :
    (weightFit = 35 ∧ weightBudget = 20 ∧ weightNeed = 20 ∧ weightUrgency = 15 ∧
      weightEngagement = 10 ∧
      weightFit + weightBudget + weightNeed + weightUrgency + weightEngagement = 100)
    ∧ (∀ s w : ℚ, weightedPoints s w = (round (s / 100 * w * 10) : ℚ) / 10)
    ∧ (weightedPoints 100 weightFit = weightFit ∧
        weightedPoints 100 weightBudget = weightBudget ∧
        weightedPoints 100 weightNeed = weightNeed ∧
        weightedPoints 100 weightUrgency = weightUrgency ∧
        weightedPoints 100 weightEngagement = weightEngagement)
    ∧ rawTotal 100 100 100 100 100 = 100 := by
  refine ⟨⟨rfl, rfl, rfl, rfl, rfl, ?_⟩, fun s w => rfl, ⟨?_, ?_, ?_, ?_, ?_⟩, ?_⟩ <;>
    norm_num [rawTotal, weightedPoints, weightFit, weightBudget, weightNeed,
      weightUrgency, weightEngagement, round_eq]

/-- C8: an ARTICLE_QUESTION turn with isFirstMessage = true leaves the insight
store unchanged, regardless of the question content, contact info and any
extraction oracle output. -/
theorem first_turn_no_insight_effect (store : InsightStore)
    (userId articleTitle question : String) (contactInfo : Option ContactInfo)
    (extracted : Option ExtractedNote) :
    articleQuestionStoreEffect store userId articleTitle question true contactInfo
      extracted = store := rfl

/-- C9: GET_INSIGHTS on an empty insight store seeds the fixed list of seven
mock lead rows into the store, returns them (a non-empty array of length 7),
and thereby mutates the shared row store. -/
theorem get_insights_seeds_when_empty :
    (getInsightsHandler []).1 = assignIds 1 mockLeads
    ∧ mockLeads.length = 7
    ∧ ((getInsightsHandler []).2).length = 7
    ∧ (getInsightsHandler []).1 ≠ ([] : InsightStore)
    ∧ (getInsightsHandler []).2 = (getInsightsHandler []).1 := by
  refine ⟨rfl, rfl, rfl, ?_, rfl⟩
  decide

/-- C3: a follow-up ARTICLE_QUESTION turn preserves the at-most-one-row-per
session invariant; when a row for the session exists it is updated in place
(the id sequence of the store is unchanged, so no insertion happens), and a
new row is created only when no row for the session exists. -/
theorem insight_at_most_one_row_per_session (store : InsightStore)
    (uid atitle q u : String) (ci : Option ContactInfo) (ex : Option ExtractedNote)
    (hids : ∀ r ∈ store, r.id ≠ 0)
    (hu : countUser store u ≤ 1) :
    countUser (followUpStoreEffect store uid atitle q ci ex) u ≤ 1
    ∧ (findByUser store uid ≠ [] →
        (followUpStoreEffect store uid atitle q ci ex).map (fun r => r.id) =
          store.map (fun r => r.id))
    ∧ (findByUser store uid = [] →
        followUpStoreEffect store uid atitle q ci ex = store ∨
          ∃ n : NewInsight, n.oduserId = uid ∧
            followUpStoreEffect store uid atitle q ci ex =
              store ++ [n.withId (freshId store)]) := by
  cases ex with
  | none => exact ⟨hu, fun _ => rfl, fun _ => Or.inl rfl⟩
  | some e =>
    cases hfind : findByUser store uid with
    | nil =>
      have hred : followUpStoreEffect store uid atitle q ci (some e) =
          if strTrim e.note ≠ "" then
            createRows store [followUpNewRow uid atitle q ci e]
          else store := by
        unfold followUpStoreEffect
        rw [hfind]
        rfl
      by_cases hnote : strTrim e.note ≠ ""
      · rw [hred, if_pos hnote]
        have hc : createRows store [followUpNewRow uid atitle q ci e] =
            store ++ [(followUpNewRow uid atitle q ci e).withId (freshId store)] := rfl
        refine ⟨?_, fun hne => absurd rfl hne, fun _ =>
          Or.inr ⟨followUpNewRow uid atitle q ci e, rfl, hc⟩⟩
        rw [hc, countUser_append_single]
        by_cases hq : ((((followUpNewRow uid atitle q ci e).withId
            (freshId store)).oduserId) == u) = true
        · have huid : uid = u := by
            have : (uid == u) = true := hq
            exact eq_of_beq this
          have hz : countUser store u = 0 := by
            unfold countUser
            rw [← huid, hfind]
            rfl
          simp [hq, hz]
        · simp only [hq, if_false, Bool.false_eq_true, Nat.add_zero]
          exact hu
      · rw [hred, if_neg hnote]
        exact ⟨hu, fun hne => absurd rfl hne, fun _ => Or.inl rfl⟩
    | cons r0 t =>
      have hr0mem : r0 ∈ store := by
        have hmem : r0 ∈ findByUser store uid := by
          rw [hfind]; exact List.mem_cons_self _ _
        exact List.mem_of_mem_filter hmem
      have hr0id : r0.id ≠ 0 := hids r0 hr0mem
      have hred : followUpStoreEffect store uid atitle q ci (some e) =
          if strTrim e.note ≠ "" then
            updateInsightRow store r0.id
              (if e.theme = "" then "other" else e.theme) e.note q
          else store := by
        unfold followUpStoreEffect
        rw [hfind]
        simp [hr0id]
      by_cases hnote : strTrim e.note ≠ ""
      · rw [hred, if_pos hnote]
        refine ⟨?_, fun _ => updateInsightRow_ids store r0.id _ e.note q, fun hnil =>
          absurd hnil (List.cons_ne_nil r0 t)⟩
        rw [updateInsightRow_countUser]
        exact hu
      · rw [hred, if_neg hnote]
        exact ⟨hu, fun _ => rfl, fun _ => Or.inl rfl⟩

/-- Witness for C3 on a concrete one-row store: a follow-up turn for the same
session keeps a single row and keeps the id sequence (updates in place). -/
theorem insight_at_most_one_row_per_session_witness :
    countUser (followUpStoreEffect demoInsightStore "s1" "Tea Guide"
        "I drink tea daily" none (some ⟨"food", "drinks tea daily"⟩)) "s1" ≤ 1
    ∧ (followUpStoreEffect demoInsightStore "s1" "Tea Guide" "I drink tea daily"
        none (some ⟨"food", "drinks tea daily"⟩)).map (fun r => r.id) =
        demoInsightStore.map (fun r => r.id) := by
  have h := insight_at_most_one_row_per_session demoInsightStore "s1" "Tea Guide"
    "I drink tea daily" "s1" none (some ⟨"food", "drinks tea daily"⟩)
    (by decide) (by decide)
  exact ⟨h.1, h.2.1 (by decide)⟩

/-- C5: if no poll within the attempt budget yields a qualifying message, the
correlator fails with the timeout error; the budget is the fixed ceiling of
60 attempts at a fixed 1000 millisecond interval. -/
theorem transport_timeout_after_budget (lists : Nat → List ChatMessage)
    (userMessageId : String) (skipTexts : List String)
    (h : ∀ i < maxAttempts, scanMessages userMessageId skipTexts (lists i) = none) :
    waitForBotResponse lists userMessageId skipTexts =
        Except.error "Timeout waiting for bot response"
    ∧ maxAttempts = 60 ∧ pollIntervalMs = 1000 := by
  refine ⟨?_, rfl, rfl⟩
  have key : ∀ fuel i, (∀ j < fuel, scanMessages userMessageId skipTexts
      (lists (i + j)) = none) →
      waitGo lists userMessageId skipTexts i fuel =
        Except.error "Timeout waiting for bot response" := by
    intro fuel
    induction fuel with
    | zero => intro i _; rfl
    | succ f ih =>
      intro i hnone
      have h0 : scanMessages userMessageId skipTexts (lists i) = none := by
        have := hnone 0 (Nat.succ_pos f)
        simpa using this
      unfold waitGo
      rw [h0]
      exact ih (i + 1) (fun j hj => by
        have := hnone (j + 1) (Nat.succ_lt_succ hj)
        simpa [Nat.add_assoc, Nat.add_comm 1 j] using this)
  unfold waitForBotResponse
  exact key maxAttempts 0 (fun j hj => by simpa using h j hj)

/-- Witness for C5 on a trace whose polls all return an empty message list. -/
theorem transport_timeout_after_budget_witness :
    waitForBotResponse (fun _ => []) "u0" [] =
        Except.error "Timeout waiting for bot response"
    ∧ maxAttempts = 60 ∧ pollIntervalMs = 1000 :=
  transport_timeout_after_budget (fun _ => []) "u0" [] (fun _ _ => rfl)

/-- C10: a SAVE_LEAD_CONTACT request whose session has no insight row leaves
the store unchanged (the contact data is discarded) and still responds with
success. -/
theorem save_lead_contact_discards_without_row (store : InsightStore)
    (uid atitle userName contactPreference contactValue : String)
    (h : findByUser store uid = []) :
    saveLeadContactHandler store uid atitle userName contactPreference
      contactValue = (store, true) := by
  unfold saveLeadContactHandler
  rw [h]

/-- Witness for C10: saving contact data for an unknown session on the
concrete one-row store changes nothing and reports success. -/
theorem save_lead_contact_discards_without_row_witness :
    saveLeadContactHandler demoInsightStore "s2" "Tea Guide" "Ann" "email"
      "ann at example.com" = (demoInsightStore, true) :=
  save_lead_contact_discards_without_row demoInsightStore "s2" "Tea Guide" "Ann"
    "email" "ann at example.com" (by decide)

/-- C4 (as the code implements it): the per-poll scan returns the trimmed
text of the first message of the list that is not the just-sent message, is a
non-empty text payload, is not in the caller-supplied exclusion set, does not
start with one of the three command markers SEARCH:, ARTICLE:, GET_ARTICLE:,
and has trimmed length at least 2; all other messages are skipped. -/
theorem transport_scan_first_qualifying (userMessageId : String)
    (skipTexts : List String) (msgs : List ChatMessage) :
    scanMessages userMessageId skipTexts msgs =
      (msgs.find? (qualifiesAsResponse userMessageId skipTexts)).map
        (fun m => strTrim m.text) := by
  induction msgs with
  | nil => rfl
  | cons m rest ih =>
    simp only [scanMessages]
    cases hb1 : (m.id == userMessageId) with
    | true =>
      have hq : qualifiesAsResponse userMessageId skipTexts m = false := by
        simp only [qualifiesAsResponse, hb1, Bool.not_true, Bool.false_and,
          Bool.and_false]
      rw [List.find?_cons_of_neg _ (by simp [hq])]
      simpa using ih
    | false =>
      cases hb2 : (m.payloadType == "text" && m.text != "") with
      | false =>
        have hq : qualifiesAsResponse userMessageId skipTexts m = false := by
          simp only [qualifiesAsResponse, hb2, Bool.and_false, Bool.false_and]
        rw [List.find?_cons_of_neg _ (by simp [hq])]
        simpa using ih
      | true =>
        cases hb3 : skipTexts.contains (strTrim m.text) with
        | true =>
          have hq : qualifiesAsResponse userMessageId skipTexts m = false := by
            simp only [qualifiesAsResponse, hb3, Bool.not_true, Bool.and_false,
              Bool.false_and]
          rw [List.find?_cons_of_neg _ (by simp [hq])]
          simpa using ih
        | false =>
          cases hb4 : (strStartsWith (strTrim m.text) "SEARCH:"
              || strStartsWith (strTrim m.text) "ARTICLE:"
              || strStartsWith (strTrim m.text) "GET_ARTICLE:") with
          | true =>
            have hq : qualifiesAsResponse userMessageId skipTexts m = false := by
              simp only [qualifiesAsResponse, hb4, Bool.not_true, Bool.and_false,
                Bool.false_and]
            rw [List.find?_cons_of_neg _ (by simp [hq])]
            simpa using ih
          | false =>
            cases hb5 : decide (2 ≤ (strTrim m.text).length) with
            | true =>
              have hq : qualifiesAsResponse userMessageId skipTexts m = true := by
                simp only [qualifiesAsResponse, hb1, hb2, hb3, hb4, hb5,
                  Bool.not_false, Bool.true_and, Bool.and_true]
              rw [List.find?_cons_of_pos _ hq]
              simp
            | false =>
              have hq : qualifiesAsResponse userMessageId skipTexts m = false := by
                simp only [qualifiesAsResponse, hb5, Bool.and_false]
              rw [List.find?_cons_of_neg _ (by simp [hq])]
              simpa using ih

/-- Counterexample to C4 as stated: on a channel whose first foreign message
is an echo starting with the reserved command marker ARTICLE_QUESTION:, the
code's scan returns that echo, while a scan that skipped every reserved
command marker (as the specification words it) would return the later real
answer. -/
theorem transport_scan_reserved_counterexample :
    scanMessages "u0" [] reservedEchoMessages = some "ARTICLE_QUESTION: ping"
    ∧ (reservedCommandWords.any
        (fun p => strStartsWith "ARTICLE_QUESTION: ping" p)) = true
    ∧ (reservedEchoMessages.find? (specQualifiesAsResponse "u0" [])).map
        (fun m => strTrim m.text) = some "a real answer"
    ∧ scanMessages "u0" [] reservedEchoMessages ≠
        (reservedEchoMessages.find? (specQualifiesAsResponse "u0" [])).map
          (fun m => strTrim m.text) := by
  refine ⟨?_, ?_, ?_, ?_⟩ <;> decide

/-- Counterexample to C6 as stated: when the plausibility check judges the
query incomprehensible (validation oracle answers no), the SEARCH handler
returns the fixed one-element mental-health suggestion, not an empty array. -/
theorem search_incomprehensible_counterexample :
    isValidQuery "no" = false
    ∧ searchHandler "qwkjh zzkk" "no" [] none none = [mentalHealthSuggestion]
    ∧ searchHandler "qwkjh zzkk" "no" [] none none ≠ ([] : List SearchResult) := by
  refine ⟨?_, ?_, ?_⟩ <;> decide

/-- C6 as amended: for every query of length at least 2 judged not to be a
comprehensible search phrase, the SEARCH handler returns the fixed
one-element mental-health-day suggestion (which carries no id). -/
theorem search_incomprehensible_easter_egg (query validationResult : String)
    (existing : List StoredArticle) (relevanceParsed : Option (List Nat))
    (suggestionsParsed : Option (List SuggestedArticle))
    (hq : 2 ≤ query.length) (hv : isValidQuery validationResult = false) :
    searchHandler query validationResult existing relevanceParsed
      suggestionsParsed = [mentalHealthSuggestion] := by
  unfold searchHandler
  rw [if_neg (by omega), hv]
  simp

/-- Witness for the amended C6 at a concrete incomprehensible query. -/
theorem search_incomprehensible_easter_egg_witness :
    searchHandler "zzzz qqqq" "no" [] none none = [mentalHealthSuggestion] :=
  search_incomprehensible_easter_egg "zzzz qqqq" "no" [] none none
    (by decide) (by decide)

/-- C7: for a comprehensible query, the result is the relevant existing
articles (with their stored ids) followed by the new suggestions, whose
number is max(0, targetResultCount - number of relevant existing rows) when
the suggestion oracle honours the requested count; every element carrying an
id is a stored article, and every element without an id has a title outside
the existing-titles set, given that the suggestion oracle respects the
exclusion list it is prompted with. -/
theorem search_result_composition (query validationResult : String)
    (existing : List StoredArticle) (relevanceParsed : Option (List Nat))
    (sugg : List SuggestedArticle)
    (hq : 2 ≤ query.length) (hv : isValidQuery validationResult = true)
    (hlen : sugg.length =
      targetResultCount - (relevantExistingOf existing relevanceParsed).length)
    (htitles : ∀ s ∈ sugg, s.title ∉ existing.map (fun a => a.title)) :
    searchHandler query validationResult existing relevanceParsed (some sugg) =
        (relevantExistingOf existing relevanceParsed).map
          (fun a => ⟨some a.id, a.title, a.snippet⟩) ++
          sugg.map (fun s => ⟨none, s.title, s.snippet⟩)
    ∧ ((searchHandler query validationResult existing relevanceParsed
          (some sugg)).filter (fun r => r.id.isNone)).length =
        targetResultCount - (relevantExistingOf existing relevanceParsed).length
    ∧ (∀ r ∈ searchHandler query validationResult existing relevanceParsed
          (some sugg), ∀ i, r.id = some i →
        ∃ a ∈ existing, a.id = i ∧ a.title = r.title ∧ a.snippet = r.snippet)
    ∧ (∀ r ∈ searchHandler query validationResult existing relevanceParsed
          (some sugg), r.id = none → r.title ∉ existing.map (fun a => a.title)) := by
  have hsub : ∀ a ∈ relevantExistingOf existing relevanceParsed, a ∈ existing := by
    intro a ha
    unfold relevantExistingOf at ha
    by_cases hex : existing.length > 0
    · rw [if_pos hex] at ha
      cases relevanceParsed with
      | none => cases ha
      | some ids => exact (List.mem_filter.mp ha).1
    · rw [if_neg hex] at ha
      cases ha
  have hmain : searchHandler query validationResult existing relevanceParsed
      (some sugg) =
      (relevantExistingOf existing relevanceParsed).map
        (fun a => ⟨some a.id, a.title, a.snippet⟩) ++
        sugg.map (fun s => ⟨none, s.title, s.snippet⟩) := by
    unfold searchHandler
    rw [if_neg (by omega), hv]
    by_cases hc : 0 < targetResultCount -
        (relevantExistingOf existing relevanceParsed).length
    · simp [hc]
    · have hempty : sugg = [] := by
        have : sugg.length = 0 := by omega
        exact List.length_eq_zero.mp this
      simp [hc, hempty]
  refine ⟨hmain, ?_, ?_, ?_⟩
  · rw [hmain, List.filter_append]
    have hA : ((relevantExistingOf existing relevanceParsed).map
        (fun a => (⟨some a.id, a.title, a.snippet⟩ : SearchResult))).filter
          (fun r => r.id.isNone) = [] := by
      rw [List.filter_eq_nil_iff]
      intro r hr
      obtain ⟨a, _, rfl⟩ := List.mem_map.mp hr
      simp
    have hB : (sugg.map (fun s => (⟨none, s.title, s.snippet⟩ : SearchResult))).filter
        (fun r => r.id.isNone) =
        sugg.map (fun s => (⟨none, s.title, s.snippet⟩ : SearchResult)) := by
      rw [List.filter_eq_self]
      intro r hr
      obtain ⟨s, _, rfl⟩ := List.mem_map.mp hr
      simp
    rw [hA, hB, List.nil_append, List.length_map, hlen]
  · intro r hr i hri
    rw [hmain] at hr
    rcases List.mem_append.mp hr with hA | hB
    · obtain ⟨a, ha, rfl⟩ := List.mem_map.mp hA
      refine ⟨a, hsub a ha, ?_, rfl, rfl⟩
      simpa using hri
    · obtain ⟨s, _, rfl⟩ := List.mem_map.mp hB
      cases hri
  · intro r hr hrnone
    rw [hmain] at hr
    rcases List.mem_append.mp hr with hA | hB
    · obtain ⟨a, _, rfl⟩ := List.mem_map.mp hA
      cases hrnone
    · obtain ⟨s, hs, rfl⟩ := List.mem_map.mp hB
      exact htitles s hs

/-- Witness for C7 with an empty article table and ten fresh suggestions:
the result is exactly the ten suggestions, all without id. -/
theorem search_result_composition_witness :
    searchHandler "bubble tea" "yes" [] none (some demoSuggestions) =
        demoSuggestions.map (fun s => ⟨none, s.title, s.snippet⟩)
    ∧ ((searchHandler "bubble tea" "yes" [] none (some demoSuggestions)).filter
        (fun r => r.id.isNone)).length = 10 := by
  have h := search_result_composition "bubble tea" "yes" [] none demoSuggestions
    (by decide) (by decide) (by decide) (by decide)
  refine ⟨?_, ?_⟩
  · have h1 := h.1
    simpa [relevantExistingOf] using h1
  · have h2 := h.2.1
    simpa [relevantExistingOf, targetResultCount] using h2

end Afterlink
